import Mathlib

/-!
# Verification of the skycam exposure-capture engine

Shallow embedding of the repository `sdsobservatory/skycam`:

* `app/zwo.py` — Driver wrapper: ROI validation (`set_roi`, `_set_roi`,
  `_set_start_position`), the asynchronous capture loop
  (`Camera.capture_image_async`), and the open/close lifecycle.
* `app/camera.py` — the session-level `Camera.capture_image_async`
  (configuration, buffer management, poll loop, FITS assembly, cleanup).
* `app/main.py` — the HTTP handlers (`camera_expose`) and their interaction
  with the background-task scheduler.

Machine integers are modelled as `ℤ`; Python `//` and `%` on the positive
divisors used here coincide with Lean's `Int` `/` (`Int.ediv`) and `%`
(`Int.emod`).  Exposure times are modelled as `ℚ` (the Python code uses
floats; every concrete input used below is exactly representable in binary
floating point, so the rational model agrees with the float computation
there).  Fallible code returns `Except String`; hardware interaction is
driven by an explicit `DriverBehavior` record and recorded as an event
trace.
-/

namespace Skycam

/-- Python `int(q)` on a real value: truncation toward zero. -/
def pyTrunc (q : ℚ) : ℤ := if 0 ≤ q then ⌊q⌋ else ⌈q⌉

/-- Python `round(q)` on a real value: round half to even. -/
def pyRound (q : ℚ) : ℤ :=
  let f := ⌊q⌋
  let r := q - (f : ℚ)
  if r < 1/2 then f
  else if 1/2 < r then f + 1
  else if f % 2 = 0 then f else f + 1

/-- `zwo.ImageType` (`zwo.py` lines 23-27). -/
inductive ImageType
  | RAW8
  | RGB24
  | RAW16
  | Y8
deriving DecidableEq

/-- Enum value of an `ImageType`, as in the Python `IntEnum`. -/
def ImageType.val : ImageType → ℤ
  | .RAW8 => 0
  | .RGB24 => 1
  | .RAW16 => 2
  | .Y8 => 3

/-- `zwo.ExposureStatus` (`zwo.py` lines 81-85). -/
inductive ExposureStatus
  | IDLE
  | WORKING
  | SUCCESS
  | FAILED
deriving DecidableEq

/-- `.name` of an `ExposureStatus` member. -/
def ExposureStatus.name : ExposureStatus → String
  | .IDLE => "IDLE"
  | .WORKING => "WORKING"
  | .SUCCESS => "SUCCESS"
  | .FAILED => "FAILED"

/-- The control kinds used by the capture path (`zwo.ControlType`). -/
inductive ControlType
  | GAIN
  | EXPOSURE
  | WB_R
  | WB_B
  | OFFSET
deriving DecidableEq

/-- `zwo.ROI` (`zwo.py` lines 114-121). -/
structure ROI where
  x : ℤ
  y : ℤ
  width : ℤ
  height : ℤ
  bins : ℤ
  image_type : ImageType
deriving DecidableEq

/-- The fields of the camera-property dictionary consumed by the embedded
code (`_get_camera_property` / `_ASI_CAMERA_INFO.get_dict`). -/
structure CamInfo where
  name : String
  maxWidth : ℤ
  maxHeight : ℤ
  supportedBins : List ℤ
  isColorCam : Bool
  bayerPattern : ℤ
deriving DecidableEq

/-- `zwo._set_start_position` (`zwo.py` lines 234-241): validation part. -/
def _set_start_position (x y : ℤ) : Except String Unit :=
  if x < 0 then .error "X position too small"
  else if y < 0 then .error "Y position too small"
  else .ok ()

/-- `zwo._set_roi` (`zwo.py` lines 193-222): validation of a fully
specified ROI against the sensor geometry. -/
def _set_roi (cam : CamInfo) (roi : ROI) : Except String Unit :=
  if roi.bins < 1 then .error "ROI bins too small"
  else if roi.width < 8 then .error "ROI width too small"
  else if roi.width > cam.maxWidth / roi.bins then
    .error "ROI width larger than binned sensor width"
  else if roi.width % 8 ≠ 0 then .error "ROI width must be a multiple of 8"
  else if roi.height < 2 then .error "ROI height too small"
  else if roi.height > cam.maxHeight / roi.bins then
    .error "ROI height larger than binned sensor height"
  else if roi.height % 2 ≠ 0 then .error "ROI height must be a multiple of 2"
  else if (cam.name = "ZWO ASI120MM" ∨ cam.name = "ZWO ASI120MC")
      ∧ (roi.width * roi.height) % 1024 ≠ 0 then
    .error "ROI width * height must be multiple of 1024"
  else .ok ()

/-- Python `image_type = image_type or roi.image_type` (`zwo.py` line 408):
`or` falls back when the value is falsy, and `ImageType.RAW8` has enum
value `0`, which is falsy in Python. -/
def resolveImageType (given : Option ImageType) (cur : ImageType) : ImageType :=
  match given with
  | none => cur
  | some it => if it = ImageType.RAW8 then cur else it

/-- The defaulting part of `zwo.Camera.set_roi` (`zwo.py` lines 408-419
and 424-425): unspecified `width`/`height` default to the full binned
sensor extent rounded down to a multiple of 8 resp. 2; unspecified
`x`/`y` centre the ROI in the binned sensor.  These computations are pure;
in the source the `y` default is computed after the `x + width` bound
check, but since nothing before it can change the inputs, computing all
four fields first yields the identical resolved ROI and error order. -/
def resolveRoi (cam : CamInfo) (cur : ROI) (x? y? w? h? : Option ℤ) (bins : ℤ)
    (it? : Option ImageType) : ROI :=
  let image_type := resolveImageType it? cur.image_type
  let width := match w? with
    | some w => w
    | none => cam.maxWidth / bins - (cam.maxWidth / bins) % 8
  let height := match h? with
    | some h => h
    | none => cam.maxHeight / bins - (cam.maxHeight / bins) % 2
  let x := match x? with
    | some x => x
    | none => ((cam.maxWidth / bins) - width) / 2
  let y := match y? with
    | some y => y
    | none => ((cam.maxHeight / bins) - height) / 2
  ⟨x, y, width, height, bins, image_type⟩

/-- Body of `set_roi` after the `bins` default/validation (`zwo.py` lines
408-432): resolve the remaining fields, check the start-position bounds
in both axes, then apply `_set_roi` and `_set_start_position`. -/
def set_roi_after_bins (cam : CamInfo) (cur : ROI) (x? y? w? h? : Option ℤ)
    (bins : ℤ) (it? : Option ImageType) : Except String ROI :=
  let newRoi := resolveRoi cam cur x? y? w? h? bins it?
  if newRoi.x + newRoi.width > cam.maxWidth / bins then
    .error "ROI and start position larger than binned sensor width"
  else if newRoi.y + newRoi.height > cam.maxHeight / bins then
    .error "ROI and start position larger than binned sensor height"
  else
    match _set_roi cam newRoi with
    | .error e => .error e
    | .ok _ =>
      match _set_start_position newRoi.x newRoi.y with
      | .error e => .error e
      | .ok _ => .ok newRoi

/-- `zwo.Camera.set_roi` (`zwo.py` lines 393-432): defaulting of
unspecified fields followed by validation (`_set_roi`) and start-position
validation (`_set_start_position`).  `cam` is the camera-property record
and `cur` the ROI currently reported by the driver.  The per-key guard
`if SupportedBins in cam_info` is always true for the driver's property
dictionary, so the membership test is applied whenever `bins` is given. -/
def set_roi (cam : CamInfo) (cur : ROI)
    (x? y? width? height? bins? : Option ℤ) (it? : Option ImageType) :
    Except String ROI :=
  match bins? with
  | some b =>
    if b ∈ cam.supportedBins then set_roi_after_bins cam cur x? y? width? height? b it?
    else .error "Unsupported bins"
  | none => set_roi_after_bins cam cur x? y? width? height? cur.bins it?

/-- `zwo.Camera.image_size_in_bytes` (`zwo.py` lines 540-548) and the size
computation of `_download_image` (`zwo.py` lines 264-270): `width * height`
scaled by the bytes-per-pixel of the image type. -/
def imageSizeBytes (roi : ROI) : ℤ :=
  let size := roi.width * roi.height
  if roi.image_type = ImageType.RAW16 then size * 2
  else if roi.image_type = ImageType.RGB24 then size * 3
  else size

/-- Header values written into the FITS header (string, integer, or the
exposure time as a rational). -/
inductive HVal
  | str (s : String)
  | int (z : ℤ)
  | rat (q : ℚ)
deriving DecidableEq

/-- The assembled image: FITS header cards plus the pixel-grid shape.  This
is the content of the `PrimaryHDU` built in `camera.py` lines 76-89. -/
structure Artifact where
  headers : List (String × HVal)
  width : ℤ
  height : ℤ
deriving DecidableEq

/-- The `_fits_data` BytesIO of `app.camera.Camera`: either a fresh, empty
stream or a stream holding one fully serialized artifact. -/
inductive FitsData
  | empty
  | artifact (a : Artifact)
deriving DecidableEq

/-- Mutable state of `app.camera.Camera` relevant to a capture:
`is_exposing`, `_buffer` and `_fits_data`. -/
structure CamState where
  is_exposing : Bool
  buffer : List ℕ
  fits : FitsData
deriving DecidableEq

/-- The hardware (Driver) calls issued during a capture. -/
inductive HwCall
  | setRoiFormat (width height bins : ℤ) (it : ImageType)
  | setStartPos (x y : ℤ)
  | setControl (ct : ControlType) (v : ℤ)
  | startExposure (dark : Bool)
  | getStatus
  | stopExposure
  | getDataAfterExp (size : ℤ)
  | getCameraProperty
  | getRoiFormat
deriving DecidableEq

/-- Events of a capture run.  `sleep` is the sole suspension point of the
capture coroutine (`await asyncio.sleep` in `zwo.py` line 495); it records
the poll interval and the values of `_fits_data` / `is_exposing` that a
concurrently scheduled reader would observe there.  `buildArtifact`,
`closeFits`, `freshFits` and `writeFits` mark lines 76-89, 91, 92 and 93 of
`camera.py`. -/
inductive Ev
  | hw (c : HwCall)
  | sleep (seconds : ℚ) (fitsSeen : FitsData) (exposingSeen : Bool)
  | cancelledInSleep (k : ℕ)
  | buildArtifact (a : Artifact)
  | closeFits
  | freshFits
  | writeFits
deriving DecidableEq

/-- Behaviour of the driver and of the event loop during one capture:
which driver calls fail, how many polls report `WORKING`, whether (and in
which sleep) the task is cancelled, the terminal exposure status, the byte
value the download fills the buffer with, and the ambient data read from
the driver (`cam`, `initialRoi`) and clocks. -/
structure DriverBehavior where
  cam : CamInfo
  initialRoi : ROI
  gainErr : Bool
  offsetErr : Bool
  wbBErr : Bool
  wbRErr : Bool
  setExposureErr : Bool
  startErr : Bool
  downloadErr : Bool
  workingPolls : ℕ
  cancelAt : Option ℕ
  terminal : ExposureStatus
  pixel : ℕ
  utcNow : String
  localNow : String
deriving DecidableEq

/-- Arguments of `app.camera.Camera.capture_image_async`. -/
structure CaptureParams where
  exposure : ℚ
  gain : ℤ
  offset : ℤ
  wb_b : Option ℤ
  wb_r : Option ℤ
  is_dark : Bool
deriving DecidableEq

/-- `poll_interval_ms = max(0.01, exposure / 25.0)` (`camera.py` line 59).
Despite the `_ms` name the value is passed to `asyncio.sleep`, i.e. it is
in seconds. -/
def poll_interval_ms (exposure : ℚ) : ℚ := max (1/100) (exposure / 25)

/-- The poll loop of `zwo.Camera.capture_image_async` (`zwo.py` lines
493-495): read the status; while it is `WORKING`, sleep for the poll
interval (a suspension point where cancellation can arrive) and read
again.  `n` is the number of `WORKING` reads the hardware will deliver,
`k` the index of the next sleep.  Returns the events and whether the task
was cancelled during one of the sleeps. -/
def pollLoop (interval : ℚ) (fits : FitsData) (exposing : Bool)
    (cancelAt : Option ℕ) : ℕ → ℕ → List Ev × Bool
  | 0, _ => ([Ev.hw HwCall.getStatus], false)
  | n + 1, k =>
    if interval ≠ 0 then
      if cancelAt = some k then
        ([Ev.hw HwCall.getStatus, Ev.cancelledInSleep k], true)
      else
        let rest := pollLoop interval fits exposing cancelAt n (k + 1)
        (Ev.hw HwCall.getStatus :: Ev.sleep interval fits exposing :: rest.1, rest.2)
    else
      let rest := pollLoop interval fits exposing cancelAt n (k + 1)
      (Ev.hw HwCall.getStatus :: rest.1, rest.2)

/-- Result of `zwo.Camera.capture_image_async`. -/
inductive ZwoRes
  | ok (buf : List ℕ)
  | err (msg : String)
  | cancelled
deriving DecidableEq

/-- `zwo.Camera.capture_image_async` (`zwo.py` lines 484-500): set the
`EXPOSURE` control to `int(exposure_sec * 1_000_000)`, start the hardware
exposure, run the poll loop, require terminal status `SUCCESS`, and
download the image into the caller's buffer (`_download_image`, which
checks the buffer length against the ROI-derived size before the driver
call). -/
def zwoCaptureImageAsync (b : DriverBehavior) (roi : ROI) (exposure_sec : ℚ)
    (is_dark : Bool) (poll_interval : ℚ) (buffer : List ℕ) (fits : FitsData)
    (exposing : Bool) : List Ev × ZwoRes :=
  let ev0 := Ev.hw (HwCall.setControl ControlType.EXPOSURE (pyTrunc (exposure_sec * 1000000)))
  if b.setExposureErr then ([ev0], .err "driver error")
  else
    let ev1 := Ev.hw (HwCall.startExposure is_dark)
    if b.startErr then ([ev0, ev1], .err "driver error")
    else
      let poll := pollLoop poll_interval fits exposing b.cancelAt b.workingPolls 0
      if poll.2 then (ev0 :: ev1 :: poll.1, .cancelled)
      else if b.terminal ≠ ExposureStatus.SUCCESS then
        (ev0 :: ev1 :: poll.1, .err ("Image capture failed as " ++ b.terminal.name))
      else
        let size := (imageSizeBytes roi).toNat
        if buffer.length ≠ size then
          (ev0 :: ev1 :: poll.1, .err "Buffer size mismatch")
        else if b.downloadErr then
          (ev0 :: ev1 :: poll.1 ++ [Ev.hw (HwCall.getDataAfterExp (imageSizeBytes roi))],
           .err "driver error")
        else
          (ev0 :: ev1 :: poll.1 ++ [Ev.hw (HwCall.getDataAfterExp (imageSizeBytes roi))],
           .ok (List.replicate size b.pixel))

/-- Outcome of a session-level capture: normal return, raised exception,
or propagated cancellation. -/
inductive Outcome
  | ok (a : Artifact)
  | failed (msg : String)
  | cancelled
deriving DecidableEq

/-- Result of `app.camera.Camera.capture_image_async`: the outcome, the
final camera state, and the event trace. -/
structure CaptureOut where
  outcome : Outcome
  state : CamState
  trace : List Ev
deriving DecidableEq

/-- The bare `except:` handler of `camera.py` lines 95-99 followed by the
`finally` of lines 100-101: zero the current buffer, close `_fits_data`,
replace it by a fresh empty stream, re-raise, and clear `is_exposing`. -/
def exceptPath (curBuffer : List ℕ) (evs : List Ev) (out : Outcome) : CaptureOut :=
  { outcome := out
    state := { is_exposing := false
               buffer := List.replicate curBuffer.length 0
               fits := FitsData.empty }
    trace := evs ++ [Ev.closeFits, Ev.freshFits] }

/-- The hardware events issued by a successful `set_roi` call
(`ASISetROIFormat` then `ASISetStartPos`). -/
def setRoiEvents (roi : ROI) : List Ev :=
  [Ev.hw (HwCall.setRoiFormat roi.width roi.height roi.bins roi.image_type),
   Ev.hw (HwCall.setStartPos roi.x roi.y)]

/-- `if wb is not None: set_control_value(ct, wb)` (`camera.py` lines
50-54): the driver call happens only when the value is present. -/
def wbEvents (wb : Option ℤ) (ct : ControlType) : List Ev :=
  match wb with
  | none => []
  | some v => [Ev.hw (HwCall.setControl ct v)]

/-- A white-balance `set_control_value` call fails iff it is made at all
and the driver rejects it. -/
def wbFails (wb : Option ℤ) (err : Bool) : Bool := wb.isSome && err

/-- The fixed Bayer table of `camera.py` line 86
(`{0: RGGB, 1: BGGR, 2: GRBG, 3: GBRG}`); indexing with any other key is a
`KeyError`, modelled as `none`. -/
def bayer_lookup (i : ℤ) : Option String :=
  if i = 0 then some "RGGB"
  else if i = 1 then some "BGGR"
  else if i = 2 then some "GRBG"
  else if i = 3 then some "GBRG"
  else none

/-- Header construction of `camera.py` lines 76-89: the eight base cards,
plus `BAYERPAT`/`COLORTYP` resolved through `bayer_lookup` when the sensor
is a colour sensor.  An index outside the table raises (`KeyError`). -/
def mkArtifact (b : DriverBehavior) (p : CaptureParams) (roi : ROI) :
    Except String Artifact :=
  let base : List (String × HVal) :=
    [("IMAGETYP", .str (if p.is_dark then "DARK" else "LIGHT")),
     ("INSTRUME", .str b.cam.name),
     ("EXPOSURE", .rat p.exposure),
     ("EXPTIME", .rat p.exposure),
     ("DATE-OBS", .str b.utcNow),
     ("DATE-LOC", .str b.localNow),
     ("GAIN", .int p.gain),
     ("OFFSET", .int p.offset)]
  if b.cam.isColorCam then
    match bayer_lookup b.cam.bayerPattern with
    | none => .error "KeyError: BayerPattern"
    | some bay =>
      .ok ⟨base ++ [("BAYERPAT", .str bay), ("COLORTYP", .str bay)], roi.width, roi.height⟩
  else
    .ok ⟨base, roi.width, roi.height⟩

/-- Buffer preparation of `camera.py` lines 56-57 and 64: reallocate if
the length differs from the ROI's image size, then zero-clear
(`_clear_buffer`). -/
def bufferFor (st : CamState) (roi2 : ROI) : List ℕ :=
  let size := (imageSizeBytes roi2).toNat
  let buf1 := if st.buffer.length ≠ size then List.replicate size 0 else st.buffer
  List.replicate buf1.length 0

/-- Tail of `capture_image_async` after the driver capture returns
(`camera.py` lines 69-99): on `CancelledError` issue a hardware
stop-exposure and re-raise through the cleanup handler; on a driver
error re-raise through the cleanup handler; on success re-read camera
info and ROI, reshape the buffer, build the FITS HDU (lines 76-89), then
close the previous `_fits_data` (line 91), allocate a fresh stream (line
92) and serialize into it (line 93). -/
def finishCapture (b : DriverBehavior) (p : CaptureParams) (st : CamState)
    (roi2 : ROI) (evs4 : List Ev) (z : List Ev × ZwoRes) : CaptureOut :=
  match z.2 with
  | .cancelled =>
    exceptPath (bufferFor st roi2) (evs4 ++ z.1 ++ [Ev.hw HwCall.stopExposure]) .cancelled
  | .err msg => exceptPath (bufferFor st roi2) (evs4 ++ z.1) (.failed msg)
  | .ok buf3 =>
    let evs5 := evs4 ++ z.1 ++ [Ev.hw HwCall.getCameraProperty, Ev.hw HwCall.getRoiFormat]
    if buf3.length ≠ (roi2.height * roi2.width).toNat * 2 then
      exceptPath buf3 evs5 (.failed "cannot reshape buffer")
    else
      match mkArtifact b p roi2 with
      | .error e => exceptPath buf3 evs5 (.failed e)
      | .ok art =>
        { outcome := .ok art
          state := { is_exposing := false, buffer := buf3, fits := .artifact art }
          trace := evs5 ++ [Ev.buildArtifact art, Ev.closeFits, Ev.freshFits, Ev.writeFits] }

/-- `app.camera.Camera.capture_image_async` (`camera.py` lines 35-101).
The sequence: set `is_exposing`; `reset_roi` (a `set_roi` to the full
frame at `bins=1`, `camera.py` line 45 / `zwo.py` lines 434-440); set
gain and offset; select `RAW16` via the `image_type` setter (a `set_roi`
with only `image_type` given); optional white balance; resize the buffer
to the ROI size if needed; compute the poll interval; zero the buffer and
run the driver capture; then `finishCapture`.  Any exception goes
through the bare `except:` cleanup; the `finally` always clears
`is_exposing`. -/
def captureImage (b : DriverBehavior) (p : CaptureParams) (st : CamState) :
    CaptureOut :=
  match set_roi b.cam b.initialRoi (some 0) (some 0)
      (some b.cam.maxWidth) (some b.cam.maxHeight) (some 1) none with
  | .error e => exceptPath st.buffer [] (.failed e)
  | .ok roi1 =>
    let evs1 := setRoiEvents roi1 ++ [Ev.hw (HwCall.setControl ControlType.GAIN p.gain)]
    if b.gainErr then exceptPath st.buffer evs1 (.failed "driver error")
    else
      let evs2 := evs1 ++ [Ev.hw (HwCall.setControl ControlType.OFFSET p.offset)]
      if b.offsetErr then exceptPath st.buffer evs2 (.failed "driver error")
      else
        match set_roi b.cam roi1 none none none none none (some ImageType.RAW16) with
        | .error e => exceptPath st.buffer evs2 (.failed e)
        | .ok roi2 =>
          let evs3 := evs2 ++ setRoiEvents roi2 ++ wbEvents p.wb_b ControlType.WB_B
          if wbFails p.wb_b b.wbBErr then exceptPath st.buffer evs3 (.failed "driver error")
          else
            let evs4 := evs3 ++ wbEvents p.wb_r ControlType.WB_R
            if wbFails p.wb_r b.wbRErr then exceptPath st.buffer evs4 (.failed "driver error")
            else
              finishCapture b p st roi2 evs4
                (zwoCaptureImageAsync b roi2 p.exposure p.is_dark
                  (poll_interval_ms p.exposure) (bufferFor st roi2) st.fits true)

/-! ## Camera lifecycle (`zwo.Camera.open` / `close`, `app.camera.Camera.open`) -/

/-- Which lifecycle driver calls fail.  `stopVideoErr` and `stopExpErr`
are swallowed by `stop_video_exposure` / `stop_exposure` (`zwo.py` lines
448-462), so they never propagate. -/
structure LifecycleBehavior where
  openErr : Bool
  initErr : Bool
  closeErr : Bool
  darkErr : Bool
  stopVideoErr : Bool
  stopExpErr : Bool
deriving DecidableEq

/-- Driver calls made during open/close. -/
inductive LcEv
  | openCamera
  | initCamera
  | closeCamera
  | disableDark
  | stopVideo
  | stopExp
deriving DecidableEq

/-- Result of a lifecycle operation: the `connected` flag, the driver
calls made, and the propagated error (if any). -/
structure LcResult where
  connected : Bool
  trace : List LcEv
  error : Option String
deriving DecidableEq

/-- `zwo.Camera.close` (`zwo.py` lines 387-391): `try: _close_camera`
`finally: connected = False`.  The release call is always attempted and
`connected` is always cleared; a driver error still propagates. -/
def zwoClose (b : LifecycleBehavior) : LcResult :=
  { connected := false
    trace := [LcEv.closeCamera]
    error := if b.closeErr then some "driver error" else none }

/-- `zwo.Camera.open` (`zwo.py` lines 378-385): `_open_camera` then
`_init_camera`, setting `connected` on success; on any exception,
`self.close()` runs before the error propagates. -/
def zwoOpen (b : LifecycleBehavior) : LcResult :=
  if b.openErr then
    let c := zwoClose b
    { connected := c.connected
      trace := LcEv.openCamera :: c.trace
      error := some "driver error" }
  else if b.initErr then
    let c := zwoClose b
    { connected := c.connected
      trace := LcEv.openCamera :: LcEv.initCamera :: c.trace
      error := some "driver error" }
  else
    { connected := true, trace := [LcEv.openCamera, LcEv.initCamera], error := none }

/-- `app.camera.Camera.open` (`camera.py` lines 25-29): `zwo` open, then
the baseline steps `disable_dark_subtract`, `stop_video_exposure`,
`stop_exposure`.  The method has no exception handling of its own:
`disable_dark_subtract` propagates a driver error directly, while the two
stop calls swallow `ZwoError` internally. -/
def appOpen (b : LifecycleBehavior) : LcResult :=
  let o := zwoOpen b
  match o.error with
  | some e => { o with error := some e }
  | none =>
    if b.darkErr then
      { connected := o.connected
        trace := o.trace ++ [LcEv.disableDark]
        error := some "driver error" }
    else
      { connected := o.connected
        trace := o.trace ++ [LcEv.disableDark, LcEv.stopVideo, LcEv.stopExp]
        error := none }

/-! ## HTTP handler and event loop (`app/main.py`) -/

/-- Progress of one scheduled background capture task.  `notStarted`: the
task is queued but its body has not run; `polling`: the body ran up to its
first suspension point (it set `is_exposing`, configured the camera and
issued the hardware start-exposure, then suspended in the poll sleep);
`finished`: the rest of the body ran (through the `finally` that clears
`is_exposing`). -/
inductive TaskPC
  | notStarted
  | polling
  | finished
deriving DecidableEq

/-- Event-loop state for the `POST /camera/expose` handler
(`main.py` lines 34-44) and its background capture tasks.  `startCalls`
counts hardware start-exposure calls; `doubleStart` records whether a
start-exposure was ever issued while `is_exposing` was already set. -/
structure ServerState where
  is_exposing : Bool
  tasks : List TaskPC
  responses : List ℕ
  startCalls : ℕ
  doubleStart : Bool
deriving DecidableEq

/-- One atomic scheduling step of the single-threaded event loop: either a
`POST /camera/expose` handler runs to completion, or a scheduled capture
task is resumed and runs until its next suspension point. -/
inductive LoopAct
  | request
  | resume (i : ℕ)

/-- Semantics of one scheduling step.  The handler checks `is_exposing`
synchronously — `409` with nothing scheduled if set, else `200` and a new
background task (`main.py` lines 40-43).  The capture task's first
segment (up to the first poll sleep) sets `is_exposing := True`
(`camera.py` line 43) and issues the hardware start-exposure; the flag is
checked nowhere inside the task body.  Its final segment clears the flag
(`camera.py` line 101). -/
def serverStep (s : ServerState) (a : LoopAct) : ServerState :=
  match a with
  | .request =>
    if s.is_exposing then { s with responses := s.responses ++ [409] }
    else { s with responses := s.responses ++ [200],
                  tasks := s.tasks ++ [TaskPC.notStarted] }
  | .resume i =>
    match s.tasks.get? i with
    | some TaskPC.notStarted =>
      { s with is_exposing := true
               tasks := s.tasks.set i TaskPC.polling
               startCalls := s.startCalls + 1
               doubleStart := s.doubleStart || s.is_exposing }
    | some TaskPC.polling =>
      { s with is_exposing := false
               tasks := s.tasks.set i TaskPC.finished }
    | _ => s

/-- Run the event loop over a list of scheduling steps. -/
def serverRun (acts : List LoopAct) (s : ServerState) : ServerState :=
  acts.foldl serverStep s

/-- Initial server state: idle camera, no tasks, no responses. -/
def serverInit : ServerState := ⟨false, [], [], 0, false⟩

/-! ## Concrete fixtures -/

/-- A small colour sensor (Bayer index 2) used to evaluate the capture
pipeline on concrete inputs. -/
def camFix : CamInfo := ⟨"TestCam", 8, 2, [1, 2], true, 2⟩

/-- Driver-reported ROI before the capture: full frame, `RAW16`. -/
def roiFix : ROI := ⟨0, 0, 8, 2, 1, ImageType.RAW16⟩

/-- A driver behaviour with no failures: one `WORKING` poll, then
`SUCCESS`. -/
def bFix : DriverBehavior :=
  { cam := camFix
    initialRoi := roiFix
    gainErr := false, offsetErr := false, wbBErr := false, wbRErr := false
    setExposureErr := false, startErr := false, downloadErr := false
    workingPolls := 1
    cancelAt := none
    terminal := ExposureStatus.SUCCESS
    pixel := 7
    utcNow := "2024-01-01T00:00:00"
    localNow := "2024-01-01T01:00:00" }

/-- A one-second light frame at gain 100, offset 50. -/
def pFix : CaptureParams := ⟨1, 100, 50, none, none, false⟩

/-- Idle camera state with an empty buffer and no stored artifact. -/
def stFix : CamState := ⟨false, [], FitsData.empty⟩

/-- The artifact the fixture capture produces. -/
def artFix : Artifact :=
  ⟨[("IMAGETYP", .str "LIGHT"),
    ("INSTRUME", .str "TestCam"),
    ("EXPOSURE", .rat 1),
    ("EXPTIME", .rat 1),
    ("DATE-OBS", .str "2024-01-01T00:00:00"),
    ("DATE-LOC", .str "2024-01-01T01:00:00"),
    ("GAIN", .int 100),
    ("OFFSET", .int 50),
    ("BAYERPAT", .str "GRBG"),
    ("COLORTYP", .str "GRBG")], 8, 2⟩

/-- The full event trace of the fixture capture. -/
def traceFix : List Ev :=
  [Ev.hw (HwCall.setRoiFormat 8 2 1 ImageType.RAW16), Ev.hw (HwCall.setStartPos 0 0),
   Ev.hw (HwCall.setControl ControlType.GAIN 100),
   Ev.hw (HwCall.setControl ControlType.OFFSET 50),
   Ev.hw (HwCall.setRoiFormat 8 2 1 ImageType.RAW16), Ev.hw (HwCall.setStartPos 0 0),
   Ev.hw (HwCall.setControl ControlType.EXPOSURE 1000000), Ev.hw (HwCall.startExposure false),
   Ev.hw HwCall.getStatus, Ev.sleep (1/25) FitsData.empty true, Ev.hw HwCall.getStatus,
   Ev.hw (HwCall.getDataAfterExp 32),
   Ev.hw HwCall.getCameraProperty, Ev.hw HwCall.getRoiFormat,
   Ev.buildArtifact artFix, Ev.closeFits, Ev.freshFits, Ev.writeFits]

/-- Fixture behaviour in which the task is cancelled during the first poll
sleep. -/
def bCancel : DriverBehavior := { bFix with cancelAt := some 0 }

/-- A previously stored artifact, used to start a capture with a non-empty
`_fits_data`. -/
def artPrior : Artifact := ⟨[("GAIN", .int 1)], 8, 2⟩

/-- Camera state holding a prior artifact and a correctly sized buffer. -/
def stPrior : CamState := ⟨false, List.replicate 32 0, FitsData.artifact artPrior⟩

/-- Capture parameters with `exposure = 3/128` seconds (`0.0234375`,
exactly representable in binary floating point; `3/128 * 10^6 = 23437.5`). -/
def pHalf : CaptureParams := ⟨3/128, 100, 50, none, none, false⟩

/-- The sensor of the spec's ROI scenarios: `maxWidth=3096`,
`maxHeight=2080`. -/
def cam3096 : CamInfo := ⟨"ZWO ASI2600MC", 3096, 2080, [1, 2], true, 0⟩

/-- Current driver ROI for the ROI scenarios. -/
def cur3096 : ROI := ⟨0, 0, 3096, 2080, 1, ImageType.RAW16⟩

/-- The artifact produced by the `pHalf` capture. -/
def artHalf : Artifact :=
  ⟨[("IMAGETYP", .str "LIGHT"),
    ("INSTRUME", .str "TestCam"),
    ("EXPOSURE", .rat (3/128)),
    ("EXPTIME", .rat (3/128)),
    ("DATE-OBS", .str "2024-01-01T00:00:00"),
    ("DATE-LOC", .str "2024-01-01T01:00:00"),
    ("GAIN", .int 100),
    ("OFFSET", .int 50),
    ("BAYERPAT", .str "GRBG"),
    ("COLORTYP", .str "GRBG")], 8, 2⟩

/-- The full event trace of the `pHalf` capture: the `EXPOSURE` control is
set to `23437` (`int(0.0234375 * 1_000_000)`). -/
def traceHalf : List Ev :=
  [Ev.hw (HwCall.setRoiFormat 8 2 1 ImageType.RAW16), Ev.hw (HwCall.setStartPos 0 0),
   Ev.hw (HwCall.setControl ControlType.GAIN 100),
   Ev.hw (HwCall.setControl ControlType.OFFSET 50),
   Ev.hw (HwCall.setRoiFormat 8 2 1 ImageType.RAW16), Ev.hw (HwCall.setStartPos 0 0),
   Ev.hw (HwCall.setControl ControlType.EXPOSURE 23437), Ev.hw (HwCall.startExposure false),
   Ev.hw HwCall.getStatus, Ev.sleep (1/100) FitsData.empty true, Ev.hw HwCall.getStatus,
   Ev.hw (HwCall.getDataAfterExp 32),
   Ev.hw HwCall.getCameraProperty, Ev.hw HwCall.getRoiFormat,
   Ev.buildArtifact artHalf, Ev.closeFits, Ev.freshFits, Ev.writeFits]

/-- The full event trace of the cancelled capture: the hardware
stop-exposure is issued after the cancellation arrives and before the
cleanup handler runs. -/
def traceCancel : List Ev :=
  [Ev.hw (HwCall.setRoiFormat 8 2 1 ImageType.RAW16), Ev.hw (HwCall.setStartPos 0 0),
   Ev.hw (HwCall.setControl ControlType.GAIN 100),
   Ev.hw (HwCall.setControl ControlType.OFFSET 50),
   Ev.hw (HwCall.setRoiFormat 8 2 1 ImageType.RAW16), Ev.hw (HwCall.setStartPos 0 0),
   Ev.hw (HwCall.setControl ControlType.EXPOSURE 1000000), Ev.hw (HwCall.startExposure false),
   Ev.hw HwCall.getStatus, Ev.cancelledInSleep 0,
   Ev.hw HwCall.stopExposure, Ev.closeFits, Ev.freshFits]

/-! ## Evaluation of the fixtures -/

theorem camFix_no_quirk : ¬("TestCam" = "ZWO ASI120MM" ∨ "TestCam" = "ZWO ASI120MC") := by
  decide

/-- Full evaluation of the fixture capture: success, buffer filled, new
artifact stored, trace as listed. -/
theorem captureFix_eq : captureImage bFix pFix stFix =
    ⟨Outcome.ok artFix, ⟨false, List.replicate 32 7, FitsData.artifact artFix⟩, traceFix⟩ := by
  have h1 : poll_interval_ms 1 = 1/25 := by norm_num [poll_interval_ms]
  have h2 : pyTrunc ((1:ℚ) * 1000000) = 1000000 := by norm_num [pyTrunc]
  have h3 : ¬((1/25 : ℚ) = 0) := by norm_num
  simp +decide [captureImage, finishCapture, bufferFor, set_roi, set_roi_after_bins, resolveRoi,
    _set_roi, _set_start_position,
    resolveImageType, camFix, roiFix, bFix, pFix, stFix, artFix, traceFix, imageSizeBytes,
    wbFails, wbEvents, setRoiEvents, zwoCaptureImageAsync, pollLoop,
    mkArtifact, bayer_lookup, exceptPath, camFix_no_quirk, h1, h2, h3]

/-- Full evaluation of the cancelled capture: cancellation propagates, the
hardware stop-exposure is issued, the buffer is cleared, and the prior
artifact is replaced by an empty stream. -/
theorem captureCancel_eq : captureImage bCancel pFix stPrior =
    ⟨Outcome.cancelled, ⟨false, List.replicate 32 0, FitsData.empty⟩, traceCancel⟩ := by
  have h1 : poll_interval_ms 1 = 1/25 := by norm_num [poll_interval_ms]
  have h2 : pyTrunc ((1:ℚ) * 1000000) = 1000000 := by norm_num [pyTrunc]
  have h3 : ¬((1/25 : ℚ) = 0) := by norm_num
  simp +decide [captureImage, finishCapture, bufferFor, set_roi, set_roi_after_bins, resolveRoi,
    _set_roi, _set_start_position,
    resolveImageType, camFix, roiFix, bCancel, bFix, pFix, stPrior, artPrior, traceCancel,
    imageSizeBytes, wbFails, wbEvents, setRoiEvents, zwoCaptureImageAsync, pollLoop,
    mkArtifact, bayer_lookup, exceptPath, camFix_no_quirk, h1, h2, h3]

/-- Full evaluation of the `exposure = 3/128 s` capture: the driver
receives `23437` microseconds and the poll interval floors at `1/100`. -/
theorem captureHalf_eq : captureImage bFix pHalf stFix =
    ⟨Outcome.ok artHalf, ⟨false, List.replicate 32 7, FitsData.artifact artHalf⟩, traceHalf⟩ := by
  have h1 : poll_interval_ms (3/128) = 1/100 := by norm_num [poll_interval_ms]
  have h2 : pyTrunc ((3:ℚ)/128 * 1000000) = 23437 := by norm_num [pyTrunc]
  have h3 : ¬((1/100 : ℚ) = 0) := by norm_num
  simp +decide [captureImage, finishCapture, bufferFor, set_roi, set_roi_after_bins, resolveRoi,
    _set_roi, _set_start_position,
    resolveImageType, camFix, roiFix, bFix, pHalf, stFix, artHalf, traceHalf, imageSizeBytes,
    wbFails, wbEvents, setRoiEvents, zwoCaptureImageAsync, pollLoop,
    mkArtifact, bayer_lookup, exceptPath, camFix_no_quirk, h1, h2, h3]

/-! ## Trace lemmas -/

/-- Every sleep event emitted by the poll loop carries the loop's poll
interval and the `_fits_data` value current when the loop started. -/
theorem pollLoop_sleep {interval q : ℚ} {fits f : FitsData} {exposing e : Bool}
    {cancelAt : Option ℕ} :
    ∀ n k, Ev.sleep q f e ∈ (pollLoop interval fits exposing cancelAt n k).1 →
      q = interval ∧ f = fits := by
  intro n
  induction n with
  | zero => intro k h; simp [pollLoop] at h
  | succ n ih =>
    intro k h
    rw [pollLoop] at h
    split at h
    · split at h
      · simp at h
      · simp only [List.mem_cons] at h
        rcases h with h | h | h
        · exact absurd h (by simp)
        · obtain ⟨hq, hf, _⟩ := Ev.sleep.inj h
          exact ⟨hq, hf⟩
        · exact ih (k + 1) h
    · simp only [List.mem_cons] at h
      rcases h with h | h
      · exact absurd h (by simp)
      · exact ih (k + 1) h

/-- Every sleep event of the driver-level capture carries the poll
interval it was called with and the `_fits_data` value at call time. -/
theorem zwo_sleep {b : DriverBehavior} {roi : ROI} {es : ℚ} {dark : Bool} {pi : ℚ}
    {buf : List ℕ} {fits : FitsData} {exposing : Bool} {q : ℚ} {f : FitsData} {e : Bool} :
    Ev.sleep q f e ∈ (zwoCaptureImageAsync b roi es dark pi buf fits exposing).1 →
    q = pi ∧ f = fits := by
  intro h
  rw [zwoCaptureImageAsync] at h
  by_cases h1 : b.setExposureErr = true <;>
  by_cases h2 : b.startErr = true <;>
  by_cases h3 : (pollLoop pi fits exposing b.cancelAt b.workingPolls 0).2 = true <;>
  by_cases h4 : b.terminal = ExposureStatus.SUCCESS <;>
  by_cases h5 : buf.length = (imageSizeBytes roi).toNat <;>
  by_cases h6 : b.downloadErr = true <;>
  (try simp [h1, h2, h3, h4, h5, h6] at h) <;>
  (try exact pollLoop_sleep _ _ h)

/-- White-balance configuration emits no suspension point. -/
theorem sleep_not_mem_wbEvents {q : ℚ} {f : FitsData} {e : Bool} {w : Option ℤ}
    {ct : ControlType} : Ev.sleep q f e ∉ wbEvents w ct := by
  cases w <;> simp [wbEvents]

/-- Sleeps in the post-capture tail all come from the configuration
events or from the driver capture itself. -/
theorem finishCapture_sleep {b : DriverBehavior} {p : CaptureParams} {st : CamState}
    {roi2 : ROI} {evs4 : List Ev} {z : List Ev × ZwoRes} {q : ℚ} {f : FitsData} {e : Bool} :
    Ev.sleep q f e ∈ (finishCapture b p st roi2 evs4 z).trace →
    Ev.sleep q f e ∈ evs4 ∨ Ev.sleep q f e ∈ z.1 := by
  intro h
  rcases z with ⟨zevs, zres⟩
  cases zres with
  | ok buf3 =>
    simp only [finishCapture] at h
    split at h
    · simp [exceptPath] at h
      tauto
    · split at h
      · simp [exceptPath] at h
        tauto
      · simp at h
        tauto
  | err msg =>
    simp only [finishCapture] at h
    simp [exceptPath] at h
    tauto
  | cancelled =>
    simp only [finishCapture] at h
    simp [exceptPath] at h
    tauto

/-- Case analysis of a session capture: it either fails during
configuration — through the cleanup handler, with a suspension-free trace
— or reaches the driver capture, whose result is post-processed by
`finishCapture` with suspension-free configuration events. -/
theorem captureImage_cases (b : DriverBehavior) (p : CaptureParams) (st : CamState) :
    (∃ buf evs msg, captureImage b p st = exceptPath buf evs (.failed msg) ∧
      ∀ q f e, Ev.sleep q f e ∉ evs) ∨
    (∃ roi2 evs4, captureImage b p st =
        finishCapture b p st roi2 evs4
          (zwoCaptureImageAsync b roi2 p.exposure p.is_dark
            (poll_interval_ms p.exposure) (bufferFor st roi2) st.fits true) ∧
      ∀ q f e, Ev.sleep q f e ∉ evs4) := by
  rw [captureImage]
  repeat' split
  · exact Or.inl ⟨_, _, _, rfl, by simp⟩
  · exact Or.inl ⟨_, _, _, rfl, by simp [setRoiEvents]⟩
  · exact Or.inl ⟨_, _, _, rfl, by simp [setRoiEvents]⟩
  · exact Or.inl ⟨_, _, _, rfl, by simp [setRoiEvents]⟩
  · exact Or.inl ⟨_, _, _, rfl, by simp [setRoiEvents, sleep_not_mem_wbEvents]⟩
  · exact Or.inl ⟨_, _, _, rfl, by simp [setRoiEvents, sleep_not_mem_wbEvents]⟩
  · exact Or.inr ⟨_, _, rfl, by simp [setRoiEvents, sleep_not_mem_wbEvents]⟩

/-- The sole suspension points of a session capture are the poll sleeps:
each one carries the interval `max(0.01, exposure / 25)` and shows the
reader the `_fits_data` value from before the capture. -/
theorem capture_sleep {b : DriverBehavior} {p : CaptureParams} {st : CamState}
    {q : ℚ} {f : FitsData} {e : Bool} :
    Ev.sleep q f e ∈ (captureImage b p st).trace →
    q = poll_interval_ms p.exposure ∧ f = st.fits := by
  intro h
  rcases captureImage_cases b p st with ⟨buf, evs, msg, hEq, hNo⟩ | ⟨roi2, evs4, hEq, hNo⟩
  · rw [hEq] at h
    simp [exceptPath] at h
    exact absurd h (hNo q f e)
  · rw [hEq] at h
    rcases finishCapture_sleep h with h' | h'
    · exact absurd h' (hNo q f e)
    · exact zwo_sleep h'

theorem finishCapture_flag {b p st roi2 evs4 z} :
    (finishCapture b p st roi2 evs4 z).state.is_exposing = false := by
  rcases z with ⟨zevs, zres⟩
  cases zres with
  | ok buf3 =>
    simp only [finishCapture]
    split
    · simp [exceptPath]
    · split <;> simp [exceptPath]
  | err msg => simp [finishCapture, exceptPath]
  | cancelled => simp [finishCapture, exceptPath]

theorem finishCapture_cancelled {b p st roi2 evs4 z} :
    (finishCapture b p st roi2 evs4 z).outcome = Outcome.cancelled →
    Ev.hw HwCall.stopExposure ∈ (finishCapture b p st roi2 evs4 z).trace ∧
    (finishCapture b p st roi2 evs4 z).state.fits = FitsData.empty := by
  rcases z with ⟨zevs, zres⟩
  cases zres with
  | ok buf3 =>
    simp only [finishCapture]
    split
    · simp [exceptPath]
    · split <;> simp [exceptPath]
  | err msg => simp [finishCapture, exceptPath]
  | cancelled =>
    intro _
    simp [finishCapture, exceptPath]

theorem finishCapture_ok {b p st roi2 evs4 z a} :
    (finishCapture b p st roi2 evs4 z).outcome = Outcome.ok a →
    (finishCapture b p st roi2 evs4 z).state.fits = FitsData.artifact a ∧
    mkArtifact b p roi2 = Except.ok a ∧
    ∃ pre, (finishCapture b p st roi2 evs4 z).trace =
      pre ++ [Ev.buildArtifact a, Ev.closeFits, Ev.freshFits, Ev.writeFits] := by
  rcases z with ⟨zevs, zres⟩
  cases zres with
  | ok buf3 =>
    simp only [finishCapture]
    split
    · simp [exceptPath]
    · split
      · simp [exceptPath]
      · intro hc
        simp at hc
        subst hc
        refine ⟨by simp, by assumption, _, rfl⟩
  | err msg => simp [finishCapture, exceptPath]
  | cancelled => simp [finishCapture, exceptPath]

/-! ## Claim theorems -/

/-- C4: for every capture, on every exit path of the capture operation —
success, any failure (driver error, exposure failure, assembly failure),
and cancellation — the exposing flag is cleared before the operation
returns or the exception propagates. -/
theorem C4_exposing_flag_cleared (b : DriverBehavior) (p : CaptureParams) (st : CamState) :
    (captureImage b p st).state.is_exposing = false := by
  rcases captureImage_cases b p st with ⟨buf, evs, msg, hEq, _⟩ | ⟨roi2, evs4, hEq, _⟩
  · rw [hEq]; simp [exceptPath]
  · rw [hEq]; exact finishCapture_flag

/-- C2 (amended): for every capture that receives a cancellation signal
while exposing, a hardware stop-exposure call is issued before the
cancellation propagates, the exposing flag is cleared, and the stored
artifact is reset to an empty stream (the prior artifact's storage is
released) rather than overwritten with partial data. -/
theorem C2_cancellation_cleanup (b : DriverBehavior) (p : CaptureParams) (st : CamState) :
    (captureImage b p st).outcome = Outcome.cancelled →
    Ev.hw HwCall.stopExposure ∈ (captureImage b p st).trace ∧
    (captureImage b p st).state.fits = FitsData.empty ∧
    (captureImage b p st).state.is_exposing = false := by
  intro hc
  rcases captureImage_cases b p st with ⟨buf, evs, msg, hEq, _⟩ | ⟨roi2, evs4, hEq, _⟩
  · rw [hEq] at hc; simp [exceptPath] at hc
  · rw [hEq] at hc ⊢
    obtain ⟨h1, h2⟩ := finishCapture_cancelled hc
    exact ⟨h1, h2, finishCapture_flag⟩

/-- C2 witness: the cancelled fixture capture issues the stop-exposure,
empties the stored artifact, and clears the flag. -/
theorem C2_cancellation_witness :
    Ev.hw HwCall.stopExposure ∈ (captureImage bCancel pFix stPrior).trace ∧
    (captureImage bCancel pFix stPrior).state.fits = FitsData.empty ∧
    (captureImage bCancel pFix stPrior).state.is_exposing = false :=
  C2_cancellation_cleanup bCancel pFix stPrior (by rw [captureCancel_eq])

/-- C2 counterexample: a capture cancelled while exposing with a non-empty
prior artifact does issue the stop-exposure, but the prior stored
artifact is not left untouched — the bare `except:` handler closes it and
replaces it with an empty stream. -/
theorem C2_prior_artifact_not_untouched :
    (captureImage bCancel pFix stPrior).outcome = Outcome.cancelled ∧
    Ev.hw HwCall.stopExposure ∈ (captureImage bCancel pFix stPrior).trace ∧
    stPrior.fits = FitsData.artifact artPrior ∧
    (captureImage bCancel pFix stPrior).state.fits ≠ stPrior.fits := by
  rw [captureCancel_eq]
  refine ⟨rfl, ?_, rfl, ?_⟩
  · simp [traceCancel]
  · simp [stPrior]

/-- C3: a reader at any suspension point of a capture observes the prior
`_fits_data` unchanged, and on success the new artifact is fully
constructed (`buildArtifact`) before the prior stream is closed
(`closeFits`), with no suspension point between the close and the final
serialized artifact — so readers only ever observe a fully-formed
artifact or the prior one. -/
theorem C3_artifact_replacement :
    (∀ (b : DriverBehavior) (p : CaptureParams) (st : CamState) (q : ℚ) (f : FitsData) (e : Bool),
      Ev.sleep q f e ∈ (captureImage b p st).trace → f = st.fits) ∧
    (∀ (b : DriverBehavior) (p : CaptureParams) (st : CamState) (a : Artifact),
      (captureImage b p st).outcome = Outcome.ok a →
      (captureImage b p st).state.fits = FitsData.artifact a ∧
      ∃ pre, (captureImage b p st).trace =
        pre ++ [Ev.buildArtifact a, Ev.closeFits, Ev.freshFits, Ev.writeFits]) := by
  constructor
  · intro b p st q f e h
    exact (capture_sleep h).2
  · intro b p st a hc
    rcases captureImage_cases b p st with ⟨buf, evs, msg, hEq, _⟩ | ⟨roi2, evs4, hEq, _⟩
    · rw [hEq] at hc; simp [exceptPath] at hc
    · rw [hEq] at hc ⊢
      obtain ⟨h1, _, h3⟩ := finishCapture_ok hc
      exact ⟨h1, h3⟩

/-- C3 witness: the fixture capture ends in build-close-fresh-write order
and stores the fully-formed artifact. -/
theorem C3_witness :
    (captureImage bFix pFix stFix).state.fits = FitsData.artifact artFix ∧
    ∃ pre, (captureImage bFix pFix stFix).trace =
      pre ++ [Ev.buildArtifact artFix, Ev.closeFits, Ev.freshFits, Ev.writeFits] :=
  C3_artifact_replacement.2 bFix pFix stFix artFix (by rw [captureFix_eq])

/-- C7: the interval used between exposure-status polls equals
`max(0.01, exposureSeconds / 25)` seconds; `exposureSeconds = 1` yields
`0.04 s` and `exposureSeconds = 0.1` yields the `0.01 s` floor. -/
theorem C7_poll_interval :
    (∀ x : ℚ, poll_interval_ms x = max (1/100) (x / 25)) ∧
    (∀ (b : DriverBehavior) (p : CaptureParams) (st : CamState) (q : ℚ) (f : FitsData) (e : Bool),
      Ev.sleep q f e ∈ (captureImage b p st).trace → q = poll_interval_ms p.exposure) ∧
    poll_interval_ms 1 = 4/100 ∧ poll_interval_ms (1/10) = 1/100 := by
  refine ⟨fun x => rfl, fun b p st q f e h => (capture_sleep h).1, ?_, ?_⟩
  · norm_num [poll_interval_ms]
  · norm_num [poll_interval_ms]

/-- C7 witness: the fixture capture's actual sleep lasts
`poll_interval_ms 1 = 1/25` seconds. -/
theorem C7_witness : (1/25 : ℚ) = poll_interval_ms 1 :=
  C7_poll_interval.2.1 bFix pFix stFix (1/25) FitsData.empty true
    (by rw [captureFix_eq]; simp [traceFix])

/-- C6 (amended): the exposure value communicated to the Driver is
`int(exposureSeconds * 1_000_000)` — truncation toward zero — not
`round(...)`: the very first driver call of the capture loop sets the
`EXPOSURE` control to the truncated value. -/
theorem C6_exposure_truncated (b : DriverBehavior) (roi : ROI) (es : ℚ) (dark : Bool)
    (pi : ℚ) (buf : List ℕ) (fits : FitsData) (exposing : Bool) :
    ((zwoCaptureImageAsync b roi es dark pi buf fits exposing).1).head? =
      some (Ev.hw (HwCall.setControl ControlType.EXPOSURE (pyTrunc (es * 1000000)))) := by
  by_cases h1 : b.setExposureErr = true <;>
  by_cases h2 : b.startErr = true <;>
  by_cases h3 : (pollLoop pi fits exposing b.cancelAt b.workingPolls 0).2 = true <;>
  by_cases h4 : b.terminal = ExposureStatus.SUCCESS <;>
  by_cases h5 : buf.length = (imageSizeBytes roi).toNat <;>
  by_cases h6 : b.downloadErr = true <;>
  simp [zwoCaptureImageAsync, h1, h2, h3, h4, h5, h6]

/-- C6 counterexample: with `exposureSeconds = 3/128` (`0.0234375`, exact
in floating point) the driver receives `23437` microseconds, while
`round(3/128 * 1_000_000) = round(23437.5) = 23438` is never sent. -/
theorem C6_round_counterexample :
    Ev.hw (HwCall.setControl ControlType.EXPOSURE 23437) ∈ (captureImage bFix pHalf stFix).trace ∧
    pyRound (pHalf.exposure * 1000000) = 23438 ∧
    Ev.hw (HwCall.setControl ControlType.EXPOSURE (pyRound (pHalf.exposure * 1000000))) ∉
      (captureImage bFix pHalf stFix).trace := by
  have hex : pHalf.exposure = (3:ℚ)/128 := rfl
  have hr : pyRound ((3:ℚ)/128 * 1000000) = 23438 := by norm_num [pyRound]
  refine ⟨?_, by rw [hex, hr], ?_⟩
  · rw [captureHalf_eq]; simp [traceHalf]
  · rw [captureHalf_eq, hex, hr]
    simp +decide [traceHalf]

/-- C10: on every successful capture on a colour sensor, the raw Bayer
index is resolved through the fixed table
`{0: RGGB, 1: BGGR, 2: GRBG, 3: GBRG}` and the resulting pattern is
recorded under both `BAYERPAT` and `COLORTYP`; an index outside 0-3 is a
hard failure of the capture (the capture cannot return an artifact), not
a silent default. -/
theorem C10_bayer_pattern :
    (bayer_lookup 0 = some "RGGB" ∧ bayer_lookup 1 = some "BGGR" ∧
      bayer_lookup 2 = some "GRBG" ∧ bayer_lookup 3 = some "GBRG" ∧
      ∀ i : ℤ, i < 0 ∨ 3 < i → bayer_lookup i = none) ∧
    (∀ (b : DriverBehavior) (p : CaptureParams) (st : CamState) (a : Artifact),
      (captureImage b p st).outcome = Outcome.ok a → b.cam.isColorCam = true →
      ∃ s, bayer_lookup b.cam.bayerPattern = some s ∧
        ("BAYERPAT", HVal.str s) ∈ a.headers ∧ ("COLORTYP", HVal.str s) ∈ a.headers) ∧
    (∀ (b : DriverBehavior) (p : CaptureParams) (st : CamState),
      b.cam.isColorCam = true → bayer_lookup b.cam.bayerPattern = none →
      ∀ a, (captureImage b p st).outcome ≠ Outcome.ok a) := by
  refine ⟨⟨by decide, by decide, by decide, by decide, ?_⟩, ?_, ?_⟩
  · intro i hi
    have h0 : ¬ i = 0 := by omega
    have h1 : ¬ i = 1 := by omega
    have h2 : ¬ i = 2 := by omega
    have h3 : ¬ i = 3 := by omega
    simp [bayer_lookup, h0, h1, h2, h3]
  · intro b p st a hok hcolor
    rcases captureImage_cases b p st with ⟨buf, evs, msg, hEq, _⟩ | ⟨roi2, evs4, hEq, _⟩
    · rw [hEq] at hok; simp [exceptPath] at hok
    · rw [hEq] at hok
      obtain ⟨_, hmk, _⟩ := finishCapture_ok hok
      rw [mkArtifact, hcolor] at hmk
      simp only [if_true] at hmk
      rcases hbl : bayer_lookup b.cam.bayerPattern with _ | bay
      · rw [hbl] at hmk; simp at hmk
      · rw [hbl] at hmk
        simp only [Except.ok.injEq] at hmk
        refine ⟨bay, rfl, ?_, ?_⟩
        · rw [← hmk]; simp
        · rw [← hmk]; simp
  · intro b p st hcolor hnone a hok
    rcases captureImage_cases b p st with ⟨buf, evs, msg, hEq, _⟩ | ⟨roi2, evs4, hEq, _⟩
    · rw [hEq] at hok; simp [exceptPath] at hok
    · rw [hEq] at hok
      obtain ⟨_, hmk, _⟩ := finishCapture_ok hok
      rw [mkArtifact, hcolor, hnone] at hmk
      simp at hmk

/-- C10 witness: the fixture colour sensor reports Bayer index 2 and the
produced artifact records `GRBG` under both fields. -/
theorem C10_witness :
    (∃ s, bayer_lookup bFix.cam.bayerPattern = some s ∧
      ("BAYERPAT", HVal.str s) ∈ artFix.headers ∧ ("COLORTYP", HVal.str s) ∈ artFix.headers) :=
  C10_bayer_pattern.2.1 bFix pFix stFix artFix (by rw [captureFix_eq]) (by decide)

/-- C1 (code-bug exhibit): the busy-flag check happens in the request
handler while the flag is set only inside the background task, so two
requests handled before either task runs are both answered `200`, both
schedule captures, and the second task issues a hardware start-exposure
while the first capture is already in progress (`doubleStart`).  A
request that arrives once the flag is set is correctly answered `409`
with nothing scheduled. -/
theorem C1_double_start_bug :
    (serverRun [LoopAct.request, LoopAct.request, LoopAct.resume 0, LoopAct.resume 1]
        serverInit).responses = [200, 200] ∧
    (serverRun [LoopAct.request, LoopAct.request, LoopAct.resume 0, LoopAct.resume 1]
        serverInit).startCalls = 2 ∧
    (serverRun [LoopAct.request, LoopAct.request, LoopAct.resume 0, LoopAct.resume 1]
        serverInit).doubleStart = true ∧
    (serverStep ⟨true, [], [], 1, false⟩ LoopAct.request).responses = [409] ∧
    (serverStep ⟨true, [], [], 1, false⟩ LoopAct.request).tasks = [] := by
  decide

/-- C5 (amended): if acquiring the native handle fails (the open or init
driver call), `close()` is attempted before the original error
propagates, and `close()` always clears the `connected` flag even when
the underlying release call fails; but a failure of the
disable-dark-subtraction baseline step in `app.camera.Camera.open`
propagates without any `close()` attempt, leaving `connected` set (the
stop-video and stop-exposure baseline steps swallow driver errors and
cannot fail). -/
theorem C5_lifecycle_amended :
    (∀ b : LifecycleBehavior, (zwoOpen b).error.isSome →
      LcEv.closeCamera ∈ (zwoOpen b).trace ∧ (zwoOpen b).connected = false) ∧
    (∀ b : LifecycleBehavior, (zwoClose b).connected = false) ∧
    (∀ b : LifecycleBehavior, b.openErr = false → b.initErr = false → b.darkErr = true →
      (appOpen b).error.isSome ∧ LcEv.closeCamera ∉ (appOpen b).trace ∧
      (appOpen b).connected = true) := by
  refine ⟨?_, fun b => rfl, ?_⟩
  · intro b h
    by_cases h1 : b.openErr = true <;> by_cases h2 : b.initErr = true <;>
      simp [zwoOpen, zwoClose, h1, h2] at h ⊢
  · intro b ho hi hd
    simp [appOpen, zwoOpen, zwoClose, ho, hi, hd]

/-- C5 witness: a failing open driver call triggers close-before-raise,
and a failing disable-dark-subtract propagates with no close. -/
theorem C5_witness :
    (LcEv.closeCamera ∈ (zwoOpen ⟨true, false, false, false, false, false⟩).trace ∧
      (zwoOpen ⟨true, false, false, false, false, false⟩).connected = false) ∧
    ((appOpen ⟨false, false, false, true, false, false⟩).error.isSome ∧
      LcEv.closeCamera ∉ (appOpen ⟨false, false, false, true, false, false⟩).trace ∧
      (appOpen ⟨false, false, false, true, false, false⟩).connected = true) :=
  ⟨C5_lifecycle_amended.1 ⟨true, false, false, false, false, false⟩ (by decide),
   C5_lifecycle_amended.2.2 ⟨false, false, false, true, false, false⟩ rfl rfl rfl⟩

/-- C5 counterexample: when only the disable-dark-subtract baseline step
fails, the open error propagates without any close attempt and the
handle stays connected — contradicting the claim that any failing step
of `open()` triggers `close()` before the error propagates. -/
theorem C5_baseline_failure_counterexample :
    (appOpen ⟨false, false, false, true, false, false⟩).error.isSome ∧
    LcEv.closeCamera ∉ (appOpen ⟨false, false, false, true, false, false⟩).trace ∧
    (appOpen ⟨false, false, false, true, false, false⟩).connected = true := by
  decide

/-- A ROI accepted by `_set_roi` satisfies all its geometry checks. -/
theorem _set_roi_ok {cam : CamInfo} {roi : ROI} {u : Unit}
    (h : _set_roi cam roi = Except.ok u) :
    1 ≤ roi.bins ∧ 8 ≤ roi.width ∧ roi.width ≤ cam.maxWidth / roi.bins ∧
    roi.width % 8 = 0 ∧ 2 ≤ roi.height ∧ roi.height ≤ cam.maxHeight / roi.bins ∧
    roi.height % 2 = 0 := by
  rw [_set_roi] at h
  repeat' split at h
  all_goals simp_all

/-- A start position accepted by `_set_start_position` is nonnegative. -/
theorem _set_start_position_ok {x y : ℤ} {u : Unit}
    (h : _set_start_position x y = Except.ok u) : 0 ≤ x ∧ 0 ≤ y := by
  rw [_set_start_position] at h
  repeat' split at h
  all_goals simp_all

/-- An ROI accepted by the body of `set_roi` is exactly the resolved ROI
and satisfies every validated geometry constraint. -/
theorem after_bins_ok {cam : CamInfo} {cur : ROI}
    {x? y? w? h? : Option ℤ} {bins : ℤ} {it? : Option ImageType} {r : ROI}
    (h : set_roi_after_bins cam cur x? y? w? h? bins it? = Except.ok r) :
    r = resolveRoi cam cur x? y? w? h? bins it? ∧
    r.x + r.width ≤ cam.maxWidth / bins ∧ r.y + r.height ≤ cam.maxHeight / bins ∧
    1 ≤ r.bins ∧ r.bins = bins ∧ 8 ≤ r.width ∧ r.width ≤ cam.maxWidth / bins ∧
    r.width % 8 = 0 ∧ 2 ≤ r.height ∧ r.height ≤ cam.maxHeight / bins ∧
    r.height % 2 = 0 ∧ 0 ≤ r.x ∧ 0 ≤ r.y := by
  rw [set_roi_after_bins] at h
  by_cases h1 : (resolveRoi cam cur x? y? w? h? bins it?).x +
      (resolveRoi cam cur x? y? w? h? bins it?).width > cam.maxWidth / bins
  · simp [h1] at h
  by_cases h2 : (resolveRoi cam cur x? y? w? h? bins it?).y +
      (resolveRoi cam cur x? y? w? h? bins it?).height > cam.maxHeight / bins
  · simp [h1, h2] at h
  simp only [h1, h2, if_false] at h
  rcases hsr : _set_roi cam (resolveRoi cam cur x? y? w? h? bins it?) with e | u2
  · rw [hsr] at h; simp at h
  rcases hsp : _set_start_position (resolveRoi cam cur x? y? w? h? bins it?).x
      (resolveRoi cam cur x? y? w? h? bins it?).y with e | u3
  · rw [hsr, hsp] at h; simp at h
  rw [hsr, hsp] at h
  simp only [Except.ok.injEq] at h
  subst h
  obtain ⟨hb1, hw1, hw2, hw8, hh1, hh2, hh3⟩ := _set_roi_ok hsr
  obtain ⟨hx0, hy0⟩ := _set_start_position_ok hsp
  have hbins : (resolveRoi cam cur x? y? w? h? bins it?).bins = bins := rfl
  push_neg at h1 h2
  rw [hbins] at hw2 hh2
  exact ⟨rfl, h1, h2, by rw [hbins] at hb1 ⊢; exact hb1, hbins, hw1, hw2, hw8, hh1, hh2, hh3, hx0, hy0⟩

/-- C8: every ROI request the validator accepts resolves to a region with
`width % 8 = 0`, `height % 2 = 0`, `width ≤ maxWidth/bins`,
`height ≤ maxHeight/bins`, `x + width ≤ maxWidth/bins` and
`y + height ≤ maxHeight/bins`; and the scenario request `width=100` with
`bins=1` on a `maxWidth=3096` sensor is rejected with the distinct
condition "ROI width must be a multiple of 8". -/
theorem C8_roi_validation :
    (∀ (cam : CamInfo) (cur : ROI) (x? y? w? h? b? : Option ℤ) (it? : Option ImageType) (r : ROI),
      set_roi cam cur x? y? w? h? b? it? = Except.ok r →
      r.width % 8 = 0 ∧ r.height % 2 = 0 ∧
      r.width ≤ cam.maxWidth / r.bins ∧ r.height ≤ cam.maxHeight / r.bins ∧
      r.x + r.width ≤ cam.maxWidth / r.bins ∧ r.y + r.height ≤ cam.maxHeight / r.bins) ∧
    set_roi cam3096 cur3096 none none (some 100) none (some 1) none =
      Except.error "ROI width must be a multiple of 8" := by
  constructor
  · intro cam cur x? y? w? h? b? it? r h
    rw [set_roi.eq_def] at h
    split at h
    next b heq =>
      split at h
      · obtain ⟨_, hxw, hyh, _, hb, _, hw2, hw8, _, hh2, hh3, _, _⟩ := after_bins_ok h
        rw [hb]
        exact ⟨hw8, hh3, hw2, hh2, hxw, hyh⟩
      · simp at h
    next heq =>
      obtain ⟨_, hxw, hyh, _, hb, _, hw2, hw8, _, hh2, hh3, _, _⟩ := after_bins_ok h
      rw [hb]
      exact ⟨hw8, hh3, hw2, hh2, hxw, hyh⟩
  · rfl

/-- C8 witness: the accepted full-frame request on the 3096x2080 sensor
satisfies all six geometry invariants. -/
theorem C8_witness :
    (3096 : ℤ) % 8 = 0 ∧ (2080 : ℤ) % 2 = 0 ∧
    (3096 : ℤ) ≤ cam3096.maxWidth / 1 ∧ (2080 : ℤ) ≤ cam3096.maxHeight / 1 ∧
    (0 : ℤ) + 3096 ≤ cam3096.maxWidth / 1 ∧ (0 : ℤ) + 2080 ≤ cam3096.maxHeight / 1 :=
  C8_roi_validation.1 cam3096 cur3096 none none none none (some 1) none
    ⟨0, 0, 3096, 2080, 1, ImageType.RAW16⟩ (by rfl)

/-- C9: unspecified `bins` defaults to the current ROI's bins,
unspecified `width`/`height` default to the full binned extent rounded
down to a multiple of 8 resp. 2, unspecified `x`/`y` centre the ROI; and
on a `maxWidth=3096, maxHeight=2080` sensor a request of `bins=1` with no
other fields resolves to `width=3096, height=2080` at start position
`(0,0)`. -/
theorem C9_roi_defaulting :
    (∀ (cam : CamInfo) (cur : ROI) (x? y? w? h? b? : Option ℤ) (it? : Option ImageType) (r : ROI),
      set_roi cam cur x? y? w? h? b? it? = Except.ok r →
      (b? = none → r.bins = cur.bins) ∧
      (w? = none → r.width = cam.maxWidth / r.bins - (cam.maxWidth / r.bins) % 8) ∧
      (h? = none → r.height = cam.maxHeight / r.bins - (cam.maxHeight / r.bins) % 2) ∧
      (x? = none → r.x = ((cam.maxWidth / r.bins) - r.width) / 2) ∧
      (y? = none → r.y = ((cam.maxHeight / r.bins) - r.height) / 2)) ∧
    set_roi cam3096 cur3096 none none none none (some 1) none =
      Except.ok ⟨0, 0, 3096, 2080, 1, ImageType.RAW16⟩ := by
  constructor
  · intro cam cur x? y? w? h? b? it? r h
    rw [set_roi.eq_def] at h
    split at h
    · split at h
      · obtain ⟨hres, _⟩ := after_bins_ok h
        subst hres
        exact ⟨fun hn => Option.noConfusion hn, fun hn => by subst hn; rfl,
               fun hn => by subst hn; rfl, fun hn => by subst hn; rfl,
               fun hn => by subst hn; rfl⟩
      · simp at h
    · obtain ⟨hres, _⟩ := after_bins_ok h
      subst hres
      exact ⟨fun _ => rfl, fun hn => by subst hn; rfl, fun hn => by subst hn; rfl,
             fun hn => by subst hn; rfl, fun hn => by subst hn; rfl⟩
  · rfl

/-- C9 witness: the all-default request on the 3096x2080 sensor takes
every defaulting branch and yields the full centred frame. -/
theorem C9_witness :
    (3096 : ℤ) = cam3096.maxWidth / 1 - (cam3096.maxWidth / 1) % 8 ∧
    (2080 : ℤ) = cam3096.maxHeight / 1 - (cam3096.maxHeight / 1) % 2 ∧
    (0 : ℤ) = ((cam3096.maxWidth / 1) - 3096) / 2 ∧
    (0 : ℤ) = ((cam3096.maxHeight / 1) - 2080) / 2 :=
  let H := C9_roi_defaulting.1 cam3096 cur3096 none none none none (some 1) none
    ⟨0, 0, 3096, 2080, 1, ImageType.RAW16⟩ (by rfl)
  ⟨H.2.1 rfl, H.2.2.1 rfl, H.2.2.2.1 rfl, H.2.2.2.2 rfl⟩

end Skycam
